import Mathlib

/-!
Verification development for the `vastai-sdnext` provisioning system
(`scripts/provision`).  The Python source is shallowly embedded: every
definition below is translated from a named function of the repository.
External I/O (HTTP responses, the filesystem) is made explicit: network
responses become oracle parameters, the filesystem becomes a list of
existing paths, and observable side effects are collected in an `Effect`
trace.  The missing `await` of `_create_typed_download_task` is modelled
faithfully: on the typed path, awaiting a created task yields the inner
adapter coroutine as an un-awaited object (see `Awaited`), so that path
executes no adapter call and crashes at the success count.
-/

namespace VastProvision

/-- Observable side effects of the provisioning pipeline: network requests
(GET / HEAD), directory creation, file writes and file deletions. -/
inductive Effect where
  | netGet (url : String)
  | netHead (url : String)
  | mkdir (dir : String)
  | fileWrite (path : String)
  | fileUnlink (path : String)
deriving Repr, DecidableEq

/-- `pathlib` path join as used by the downloaders (`target_dir / filename`).
Joining with the empty string returns the directory itself, exactly as
`Path(d) / "" == Path(d)` in Python. -/
def pathJoin (d f : String) : String :=
  if f = "" then d else d ++ "/" ++ f

/-- The filesystem is modelled as the list of paths that exist. -/
def insertFile (p : String) (fs : List String) : List String :=
  if p ∈ fs then fs else p :: fs

/-- `Path.unlink` (all occurrences of the path are removed). -/
def removeFile (p : String) (fs : List String) : List String :=
  fs.filter (fun q => q ≠ p)

/-- `models.DownloadResult`: result of one download operation. -/
structure DownloadResult where
  model_name : String
  success : Bool
  error_message : Option String := none
  file_path : Option String := none
deriving Repr, DecidableEq

/-- `models.ProvisioningSummary`: aggregate counts of one provisioning run. -/
structure ProvisioningSummary where
  total_models : Nat
  successful_downloads : Nat
  failed_downloads : Nat
  skipped_models : Nat
  results : List DownloadResult := []
deriving Repr, DecidableEq

/-- `ProvisioningSummary.success_rate`: the Python property returns
`(successful_downloads / total_models) * 100` (a float percentage) and
`0.0` when `total_models == 0`; modelled over `ℚ`. -/
def ProvisioningSummary.success_rate (s : ProvisioningSummary) : ℚ :=
  if s.total_models = 0 then 0
  else ((s.successful_downloads : ℚ) / (s.total_models : ℚ)) * 100

/-- `models.ModelSource` enumeration. -/
inductive ModelSource where
  | huggingface
  | civitai
  | direct_url
deriving Repr, DecidableEq

/-- `ModelSource(value)` construction: raises `ValueError` for any string
other than the three member values. -/
def ModelSource.ofString : String → Except String ModelSource
  | "huggingface" => .ok .huggingface
  | "civitai" => .ok .civitai
  | "url" => .ok .direct_url
  | s => .error ("ValueError: " ++ s ++ " is not a valid ModelSource")

/-- Truthiness of an optional string in Python (`not x` holds for `None`
and for the empty string). -/
def isBlankOpt : Option String → Bool
  | none => true
  | some s => s = ""

/-- A model entry after `ModelConfigPydantic` validation: the `source`
field has been normalised to a string by the `always=True` validator. -/
structure PydModel where
  source : String
  repo : Option String := none
  version_id : Option String := none
  url : Option String := none
  filename : Option String := none
  file : Option String := none
  gated : Bool := false
  headers : List (String × String) := []
deriving Repr, DecidableEq

/-- `models.ModelConfig`: typed descriptor built by the orchestrator. -/
structure ModelConfig where
  name : String
  source : ModelSource
  target_dir : String
  repo : Option String := none
  version_id : Option String := none
  url : Option String := none
  filename : Option String := none
  file : Option String := none
  gated : Bool := false
  headers : List (String × String) := []
deriving Repr, DecidableEq

/-- `ModelConfig.__post_init__` validation: each source kind requires its
field to be present and non-empty, otherwise `ConfigurationError`. -/
def mkModelConfig (name : String) (src : ModelSource) (dir : String)
    (m : PydModel) : Except String ModelConfig :=
  let c : ModelConfig :=
    { name := name, source := src, target_dir := dir, repo := m.repo,
      version_id := m.version_id, url := m.url, filename := m.filename,
      file := m.file, gated := m.gated, headers := m.headers }
  if src = .huggingface ∧ isBlankOpt m.repo then
    .error ("ConfigurationError: HuggingFace models require repo for " ++ name)
  else if src = .civitai ∧ isBlankOpt m.version_id then
    .error ("ConfigurationError: CivitAI models require version_id for " ++ name)
  else if src = .direct_url ∧ isBlankOpt m.url then
    .error ("ConfigurationError: Direct URL models require url for " ++ name)
  else .ok c

/-- Construction of one typed model configuration inside
`_download_models_typed` (lines 281-295): `ModelSource(...)` followed by
`ModelConfig(...)`; any exception excludes the entry. -/
def buildModelConfig (name dir : String) (m : PydModel) :
    Except String ModelConfig :=
  match ModelSource.ofString m.source with
  | .error e => .error e
  | .ok src => mkModelConfig name src dir m

/-- `ProvisioningSystem._get_category_dir`: fixed table with pass-through
for unknown categories. -/
def getCategoryDir (category : String) : String :=
  if category = "checkpoints" then "Stable-diffusion"
  else if category = "lora" then "Lora"
  else if category = "vae" then "VAE"
  else if category = "controlnet" then "ControlNet"
  else if category = "esrgan" then "ESRGAN"
  else if category = "embeddings" then "embeddings"
  else if category = "hypernetworks" then "hypernetworks"
  else if category = "text_encoder" then "text_encoder"
  else if category = "clip" then "text_encoder"
  else category

/-- A validated configuration: categories mapped to named model entries
(`ProvisionConfigPydantic.models`, iteration order of the dicts). -/
abbrev PydConfig := List (String × List (String × PydModel))

/-- Number of manifest model entries processed by the per-entry loop of
`_download_models_typed`. -/
def configEntryCount (cfg : PydConfig) : Nat :=
  (cfg.map (fun c => c.2.length)).sum

/-- The typed model configurations that are successfully constructed by
`_download_models_typed` (entries whose construction raises are logged
and excluded). -/
def builtConfigs (modelsDir : String) (cfg : PydConfig) : List ModelConfig :=
  cfg.flatMap (fun c =>
    c.2.filterMap (fun e =>
      (buildModelConfig e.1 (pathJoin modelsDir (getCategoryDir c.1)) e.2).toOption))

/-- The exception-conversion loop of `_execute_concurrent_downloads`
(lines 356-366): the result at position `i` is kept if it is a
`DownloadResult` and replaced by a failed result named `model_{i}` if it
is an exception.  `j` is the index of the first remaining element. -/
def processResults (j : Nat) : List (Except String DownloadResult) → List DownloadResult
  | [] => []
  | .error e :: rest =>
      { model_name := "model_" ++ toString j, success := false,
        error_message := some e } :: processResults (j + 1) rest
  | .ok d :: rest => d :: processResults (j + 1) rest

/-- `ProvisioningSystem._execute_concurrent_downloads`, after the gather:
converts exceptions to `DownloadResult` objects, by position. -/
def executeConcurrentDownloads (results : List (Except String DownloadResult)) :
    List DownloadResult :=
  processResults 0 results

/-- A value produced by awaiting one gathered download task on the typed
path.  `_create_typed_download_task` (core.py line 369) is itself `async`
and returns the adapter coroutine **without awaiting it** (lines 373-377),
so awaiting the created task yields a coroutine object — never an adapter
`DownloadResult`, and never an exception (its body is fully wrapped in
try/except and only constructs the inner coroutine). -/
inductive Awaited where
  | result (r : DownloadResult)
  | coroutineObj (mc : ModelConfig)
deriving Repr, DecidableEq

/-- The `r.success` attribute access of core.py line 333: defined on a
`DownloadResult`, an `AttributeError` on a coroutine object. -/
def Awaited.successAttr : Awaited → Except String Bool
  | .result r => .ok r.success
  | .coroutineObj _ =>
      .error "AttributeError: coroutine object has no attribute success"

/-- `sum(1 for r in results if r.success)` (core.py line 333): the count
aborts with the exception of the first element whose attribute access
raises. -/
def countSuccesses : List Awaited → Except String Nat
  | [] => .ok 0
  | r :: rest =>
    match r.successAttr with
    | .error e => .error e
    | .ok b =>
      match countSuccesses rest with
      | .error e => .error e
      | .ok n => .ok (if b then n + 1 else n)

/-- `ProvisioningSystem._download_models_typed`.  In dry-run mode the
`mkdir` calls are skipped, no task is created, and every built config is
counted successful.  With no built config no task exists and the zero
summary is returned.  Otherwise one task per built config is submitted
and awaited under the semaphore: each await returns the inner adapter
coroutine un-awaited (the missing `await` of
`_create_typed_download_task`), so the gather yields coroutine objects.
None of them is an `Exception`, so the conversion loop of
`_execute_concurrent_downloads` passes them through unchanged, and the
success count of line 333 raises `AttributeError` before any summary is
built — this branch never returns a summary, no adapter runs, and the
only effects of the stage are the per-category `mkdir` calls.  (The
summary construction of lines 338-344 is kept in the unreachable `.ok`
branch of the count; the raw gathered list it would attach is omitted
there, as it is not a `DownloadResult` list.) -/
def downloadModelsTyped (dryRun : Bool) (modelsDir : String) (cfg : PydConfig) :
    Except String ProvisioningSummary × List Effect :=
  let mcs := builtConfigs modelsDir cfg
  if dryRun then
    (.ok { total_models := mcs.length, successful_downloads := mcs.length,
           failed_downloads := 0, skipped_models := 0 }, [])
  else
    let mkdirEffs := cfg.map (fun c => Effect.mkdir (pathJoin modelsDir (getCategoryDir c.1)))
    if mcs.isEmpty then
      (.ok { total_models := 0, successful_downloads := 0,
             failed_downloads := 0, skipped_models := 0 }, mkdirEffs)
    else
      let results := mcs.map Awaited.coroutineObj
      let value : Except String ProvisioningSummary :=
        match countSuccesses results with
        | .error e => .error e
        | .ok successful =>
            .ok { total_models := results.length,
                  successful_downloads := successful,
                  failed_downloads := results.length - successful,
                  skipped_models := 0 }
      (value, mkdirEffs)

/-- A raw manifest entry as parsed from TOML, before Pydantic validation:
a dictionary with optional fields (`config_dict` entries). -/
structure RawModel where
  source : Option String := none
  repo : Option String := none
  version_id : Option String := none
  url : Option String := none
  filename : Option String := none
  file : Option String := none
  gated : Bool := false
  headers : List (String × String) := []
deriving Repr, DecidableEq

/-- A raw manifest: category name to named raw entries (`config_dict["models"]`). -/
abbrev RawConfig := List (String × List (String × RawModel))

/-- The `validate_source` validator of `ModelConfigPydantic` (`pre=True,
always=True`).  `source` is the first declared field, so `values` holds no
previously-validated field when it runs: the `repo` / `version_id` / `url`
auto-detection branches can never fire, and a missing or empty `source`
always normalises to `"unknown"`. -/
def validateSourceField (m : RawModel) : String :=
  match m.source with
  | some s => if s ≠ "" then s else "unknown"
  | none => "unknown"

/-- `ModelConfigPydantic` validation of one raw entry: normalise `source`,
then run the `repo` / `version_id` / `url` required-field validators
against the normalised source.  (`HttpUrl` syntactic parsing is treated as
accepting the given string.) -/
def pydanticModel (m : RawModel) : Except String PydModel :=
  let src := validateSourceField m
  if src = "huggingface" ∧ isBlankOpt m.repo then
    .error "ValidationError: repo required for HuggingFace models"
  else if src = "civitai" ∧ isBlankOpt m.version_id then
    .error "ValidationError: version_id required for CivitAI models"
  else if src = "url" ∧ isBlankOpt m.url then
    .error "ValidationError: url required for direct URL models"
  else
    .ok { source := src, repo := m.repo, version_id := m.version_id,
          url := m.url, filename := m.filename, file := m.file,
          gated := m.gated, headers := m.headers }

/-- Validation of a list element-by-element, stopping at the first
failing element — the behaviour of nested Pydantic collection fields. -/
def exceptMapList {α β : Type} (f : α → Except String β) :
    List α → Except String (List β)
  | [] => .ok []
  | a :: t =>
    match f a with
    | .error e => .error e
    | .ok b =>
      match exceptMapList f t with
      | .error e => .error e
      | .ok bs => .ok (b :: bs)

/-- Validation of one named entry of a category. -/
def pydanticEntry (e : String × RawModel) : Except String (String × PydModel) :=
  match pydanticModel e.2 with
  | .error er => .error er
  | .ok pm => .ok (e.1, pm)

/-- Validation of one category (a mapping of model names to entries). -/
def pydanticCategory (c : String × List (String × RawModel)) :
    Except String (String × List (String × PydModel)) :=
  match exceptMapList pydanticEntry c.2 with
  | .error er => .error er
  | .ok ms => .ok (c.1, ms)

/-- `ProvisionConfigPydantic(**config_dict)`: validates every entry of
every category; any entry failure makes the whole construction raise. -/
def pydanticConfig (cfg : RawConfig) : Except String PydConfig :=
  exceptMapList pydanticCategory cfg

/-- `ProvisioningSystem._find_gated_models`: every raw entry (a dict) with
`gated` set. -/
def findGatedModels (cfg : RawConfig) : List RawModel :=
  cfg.flatMap (fun c => c.2.filterMap (fun e => if e.2.gated then some e.2 else none))

/-- The gated models for which `_validate_tokens` emits the
`GATED MODEL ACCESS DENIED` error log (`_log_gated_model_error`): those
whose explicit `source` field (`model.get("source", "unknown")`) names a
platform whose token validation failed. -/
def validateTokensErrors (cfg : RawConfig) (hfValid civitaiValid : Bool) :
    List RawModel :=
  (findGatedModels cfg).filter (fun m =>
    let src := m.source.getD "unknown"
    (src = "huggingface" ∧ ¬hfValid) ∨ (src = "civitai" ∧ ¬civitaiValid))

/-- Token environment read by `TokenValidator.__init__` (`HF_TOKEN`,
`CIVITAI_TOKEN`). -/
structure TokenEnv where
  hf_token : Option String := none
  civitai_token : Option String := none
deriving Repr, DecidableEq

/-- `TokenValidator.validate_hf_token`.  `probe` is the outcome of the
authenticated GET: `some status`, or `none` when the request raises.  The
function is total (every branch returns a `Bool`): no exception escapes.
Returns the result and the network effects performed. -/
def validate_hf_token (env : TokenEnv) (probe : Option Nat) : Bool × List Effect :=
  if isBlankOpt env.hf_token then (false, [])
  else
    (decide (probe = some 200), [Effect.netGet "https://huggingface.co/api/whoami-v2"])

/-- `TokenValidator.validate_civitai_token`, same shape as the hub probe. -/
def validate_civitai_token (env : TokenEnv) (probe : Option Nat) : Bool × List Effect :=
  if isBlankOpt env.civitai_token then (false, [])
  else
    (decide (probe = some 200),
     [Effect.netGet "https://civitai.com/api/v1/models?hidden=1&limit=1"])

/-- `ProvisioningSystem._validate_tokens`: when no gated model exists the
probes are skipped entirely; otherwise both platform probes run.  Returns
the two validity flags, the gated-error log entries and the effects. -/
def validateTokensStage (cfg : RawConfig) (env : TokenEnv)
    (hfProbe civProbe : Option Nat) :
    (Bool × Bool) × List RawModel × List Effect :=
  if (findGatedModels cfg).isEmpty then ((false, false), [], [])
  else
    let (hfValid, e1) := validate_hf_token env hfProbe
    let (civValid, e2) := validate_civitai_token env civProbe
    ((hfValid, civValid), validateTokensErrors cfg hfValid civValid, e1 ++ e2)

/-- `ProvisioningSystem.provision_from_url`: fetch the manifest (one GET),
validate it with Pydantic, run token validation, then
`_download_models_typed`.  `fetched` is the body the configuration GET
returns (`none` when the fetch itself fails).  Any exception — including
the `AttributeError` the typed download stage raises whenever at least
one task was submitted — is caught by the outer handler and re-raised as
a `ProvisioningError`, so such runs never return a summary. -/
def provisionFromUrl (dryRun : Bool) (env : TokenEnv)
    (hfProbe civProbe : Option Nat) (configUrl : String)
    (fetched : Option RawConfig) (modelsDir : String) :
    Except String ProvisioningSummary × List Effect :=
  let fetchEffs := [Effect.netGet configUrl]
  match fetched with
  | none => (.error "ProvisioningError: Provisioning from URL failed", fetchEffs)
  | some raw =>
    match pydanticConfig raw with
    | .error e => (.error ("ProvisioningError: " ++ e), fetchEffs)
    | .ok pcfg =>
      let tokenEffs := (validateTokensStage raw env hfProbe civProbe).2.2
      let dl := downloadModelsTyped dryRun modelsDir pcfg
      match dl.1 with
      | .error e =>
          (.error ("ProvisioningError: Provisioning from URL failed: " ++ e),
           fetchEffs ++ tokenEffs ++ dl.2)
      | .ok summary => (.ok summary, fetchEffs ++ tokenEffs ++ dl.2)

/-- Parent directory of a path (`target_file.parent`). -/
def dirname (p : String) : String :=
  String.intercalate "/" ((p.splitOn "/").dropLast)

/-- `Path(path).name`: final component of a slash-separated path. -/
def pathName (path : String) : String :=
  (path.splitOn "/").getLastD ""

/-- Python `or` with empty-string fallback applied to an optional field,
as in the `model_config.file or` empty-string expression of core.py. -/
def orEmpty : Option String → String
  | none => ""
  | some s => s

/-- Model metadata assembled by `CivitAIDownloader._get_model_info` from a
200 response: the dict always carries a `filename` key, whose value is
`data.files[0].name` or the empty string. -/
structure CivitaiInfo where
  filename : String
  sizeKB : Nat := 0
  downloadUrl : String := ""
deriving Repr, DecidableEq

def civitaiBaseUrl : String := "https://civitai.com/api"

/-- `CivitAIDownloader._get_model_info`: one GET against the
model-versions endpoint; `resp` is its outcome (`none` for any non-200
status or exception). -/
def civitaiGetModelInfo (model_id : String) (resp : Option CivitaiInfo) :
    Option CivitaiInfo × List Effect :=
  (resp, [Effect.netGet (civitaiBaseUrl ++ "/v1/model-versions/" ++ model_id)])

/-- Filename resolution in `CivitAIDownloader.download` (lines 57-59):
`model_info.get(..)` with the synthesized default.  The dict built
by `_get_model_info` always contains the `filename` key (possibly the
empty string), so the synthesized default is unreachable. -/
def civitaiResolveFilename (filename : String) (info : CivitaiInfo) : String :=
  if filename ≠ "" then filename else info.filename

/-- Outcome of one CivitAI file transfer, as seen by
`CivitAIDownloader._download_file`: success, a non-200 status, an
exception after part of the file was written, or an exception before any
byte was written. -/
inductive CivXfer where
  | ok
  | httpError (status : Nat)
  | midFail (msg : String)
  | connectFail (msg : String)
deriving Repr, DecidableEq

/-- `CivXfer` outcomes on which `_download_file` returns `False`. -/
def CivXfer.isFailure : CivXfer → Bool
  | .ok => false
  | _ => true

/-- `CivitAIDownloader._download_file`: streams the response into
`target`; on any exception the partial file is unlinked
(`if target_file.exists(): target_file.unlink()`) before returning
`False`. -/
def civitaiDownloadFile (url target : String) (fs : List String) :
    CivXfer → Bool × List String × List Effect
  | .ok =>
      (true, insertFile target fs,
       [.netGet url, .mkdir (dirname target), .fileWrite target])
  | .httpError _ => (false, fs, [.netGet url])
  | .midFail _ =>
      (false, removeFile target (insertFile target fs),
       [.netGet url, .mkdir (dirname target), .fileWrite target, .fileUnlink target])
  | .connectFail _ =>
      if target ∈ fs then
        (false, removeFile target fs, [.netGet url, .fileUnlink target])
      else (false, fs, [.netGet url])

/-- `CivitAIDownloader.download`: fetch model metadata, resolve the
filename, skip if the target exists, otherwise transfer. -/
def civitaiDownload (model_name model_id target_dir filename : String)
    (infoResp : Option CivitaiInfo) (fs : List String) (xfer : CivXfer) :
    Bool × List String × List Effect :=
  let e1 := (civitaiGetModelInfo model_id infoResp).2
  match (civitaiGetModelInfo model_id infoResp).1 with
  | none => (false, fs, e1)
  | some info =>
    let fname := civitaiResolveFilename filename info
    let target := pathJoin target_dir fname
    if target ∈ fs then (true, fs, e1)
    else
      let dl :=
        civitaiDownloadFile (civitaiBaseUrl ++ "/download/models/" ++ model_id)
          target fs xfer
      (dl.1, dl.2.1, e1 ++ dl.2.2)

/-- Outcome of one direct-URL transfer (`DirectURLDownloader._download_file`):
like `CivXfer`, plus the separately-handled `asyncio.TimeoutError` and the
Google-Drive interstitial page, after which the download recurses once per
interstitial with the extracted confirm URL. -/
inductive DirXfer where
  | ok
  | httpError (status : Nat)
  | midFail (msg : String)
  | timeout
  | connectFail (msg : String)
  | gdriveConfirm (confirmUrl : String) (next : DirXfer)
deriving Repr, DecidableEq

/-- `DirXfer` outcomes on which `_download_file` returns `False`. -/
def DirXfer.isFailure : DirXfer → Bool
  | .ok => false
  | .gdriveConfirm _ next => next.isFailure
  | _ => true

/-- `DirectURLDownloader._download_file`: streams the response into
`target`; both the `asyncio.TimeoutError` handler and the generic
exception handler unlink the partial file before returning `False`. -/
def directDownloadFile (url target : String) (fs : List String) :
    DirXfer → Bool × List String × List Effect
  | .ok =>
      (true, insertFile target fs,
       [.netGet url, .mkdir (dirname target), .fileWrite target])
  | .httpError _ => (false, fs, [.netGet url])
  | .midFail _ =>
      (false, removeFile target (insertFile target fs),
       [.netGet url, .mkdir (dirname target), .fileWrite target, .fileUnlink target])
  | .timeout =>
      (false, removeFile target (insertFile target fs),
       [.netGet url, .mkdir (dirname target), .fileWrite target, .fileUnlink target])
  | .connectFail _ =>
      if target ∈ fs then
        (false, removeFile target fs, [.netGet url, .fileUnlink target])
      else (false, fs, [.netGet url])
  | .gdriveConfirm confirmUrl next =>
      let (ok, fs2, e2) := directDownloadFile confirmUrl target fs next
      (ok, fs2, .netGet url :: e2)

/-- `DirectURLDownloader._get_filename`: first try the URL path component
(`urlparse`, treated as the external input `urlPath`); if it has no
usable name, probe with a HEAD request.  `headResult` is the filename the
`Content-Disposition` branch yields (`none` for a non-200 response, a
missing/unmatched header, or an exception). -/
def directGetFilename (processedUrl urlPath : String)
    (headResult : Option String) : Option String × List Effect :=
  if urlPath ≠ "" ∧ urlPath.contains '.' then
    let fname := pathName urlPath
    if fname ≠ "" ∧ fname.length < 255 then (some fname, [])
    else (headResult, [Effect.netHead processedUrl])
  else (headResult, [Effect.netHead processedUrl])

/-- Filename resolution in `DirectURLDownloader.download` (lines 62-66):
explicit filename, else `_get_filename` discovery, else the synthesized
`{model_name}.safetensors` default (`if not filename`). -/
def directResolveFilename (model_name filename processedUrl urlPath : String)
    (headResult : Option String) : String × List Effect :=
  if filename ≠ "" then (filename, [])
  else
    let found := (directGetFilename processedUrl urlPath headResult).1
    let effs := (directGetFilename processedUrl urlPath headResult).2
    let fname := found.getD ""
    (if fname = "" then model_name ++ ".safetensors" else fname, effs)

/-- `DirectURLDownloader.download`.  `processedUrl` is the output of the
URL-normalization step (`URLProcessor.process_url`, a pure rewrite the
spec treats as an external collaborator) and `urlPath` its `urlparse`
path component. -/
def directDownload (model_name url processedUrl urlPath target_dir filename : String)
    (headResult : Option String) (fs : List String) (xfer : DirXfer) :
    Bool × List String × List Effect :=
  let fname := (directResolveFilename model_name filename processedUrl urlPath headResult).1
  let e1 := (directResolveFilename model_name filename processedUrl urlPath headResult).2
  let target := pathJoin target_dir fname
  if target ∈ fs then (true, fs, e1)
  else
    let dl := directDownloadFile processedUrl target fs xfer
    (dl.1, dl.2.1, e1 ++ dl.2.2)

def hfRepoInfoUrl (repo : String) : String :=
  "https://huggingface.co/api/models/" ++ repo

def hfResolveUrl (repo filename : String) : String :=
  "https://huggingface.co/" ++ repo ++ "/resolve/main/" ++ filename

/-- `HuggingFaceDownloader.download`.  The `filename` argument is exactly
what the orchestrator passes (`model_config.file or ""`); the adapter
performs no filename discovery and synthesizes no default.  `canAccess`
is the outcome of the `_can_access_repo` probe (one `repo_info` network
call), `dlResult` the path `hf_hub_download` returns (`none` on error);
on success the library has written the file under `target_dir`. -/
def hfDownload (hfAvailable : Bool) (model_name repo_id filename target_dir : String)
    (gated : Bool) (fs : List String) (canAccess : Bool) (dlResult : Option String) :
    Bool × List String × List Effect :=
  if ¬hfAvailable then (false, fs, [])
  else
    let target := pathJoin target_dir filename
    if target ∈ fs then (true, fs, [])
    else if gated ∧ ¬canAccess then
      (false, fs, [.netGet (hfRepoInfoUrl repo_id)])
    else
      let probeEffs := if gated then [Effect.netGet (hfRepoInfoUrl repo_id)] else []
      match dlResult with
      | some _ =>
          (true, insertFile target fs,
           probeEffs ++ [.netGet (hfResolveUrl repo_id filename), .fileWrite target])
      | none =>
          (false, fs, probeEffs ++ [.netGet (hfResolveUrl repo_id filename)])

/-- Modelled from the spec: the filename-resolution chain §4.2 claims for
every adapter — explicit filename/file field, else adapter-specific
discovery, else a synthesized `{model_name}.safetensors`.  Used only to
compare the claimed chain with the resolution found in the code. -/
def specFilenameChain (explicit discovered : Option String)
    (model_name : String) : String :=
  match explicit with
  | some f => f
  | none =>
    match discovered with
    | some f => f
    | none => model_name ++ ".safetensors"

/-- Phase of one submitted download task: not yet started, currently
executing (what executes differs per path — see `SchedStep`), or
completed/failed. -/
inductive TaskPhase where
  | waiting
  | running
  | done
deriving Repr, DecidableEq

/-- Number of tasks currently executing. -/
def countRunning : List TaskPhase → Nat
  | [] => 0
  | .running :: t => countRunning t + 1
  | .waiting :: t => countRunning t
  | .done :: t => countRunning t

/-- Scheduler state: free semaphore permits (`asyncio.Semaphore._value`)
and the phase of each submitted task. -/
structure SchedState where
  avail : Nat
  tasks : List TaskPhase
deriving Repr, DecidableEq

/-- Permit bookkeeping on task start: the semaphore path consumes one
permit, the plain-gather path touches nothing. -/
def acqAvail : Bool → Nat → Nat
  | true, a => a - 1
  | false, a => a

/-- Permit bookkeeping on task completion (normal or exceptional). -/
def relAvail : Bool → Nat → Nat
  | true, a => a + 1
  | false, a => a

/-- One cooperative-scheduling step over the submitted tasks.  With
`useSem = true` this is `_execute_concurrent_downloads` on the
`provision_from_url` path: `running` means the task is inside
`download_with_semaphore`, holding one permit while it awaits the created
task — an await that only constructs and returns the inner adapter
coroutine (the missing `await` of `_create_typed_download_task`), so no
adapter call and no network I/O happens inside the guarded region;
starting consumes a permit (blocking while none is free) and finishing —
normally or by exception — releases it (`async with self._semaphore`).
With `useSem = false` this is `_download_models` (the
`provision_from_file` path): the plain `def _create_download_task` hands
real adapter coroutines to `asyncio.gather`, `running` means an adapter
call is executing its network I/O, and the semaphore is never touched. -/
inductive SchedStep (useSem : Bool) : SchedState → SchedState → Prop where
  | start (s : SchedState) (i : Nat) :
      s.tasks[i]? = some .waiting →
      (useSem = true → 0 < s.avail) →
      SchedStep useSem s ⟨acqAvail useSem s.avail, s.tasks.set i .running⟩
  | finish (s : SchedState) (i : Nat) :
      s.tasks[i]? = some .running →
      SchedStep useSem s ⟨relAvail useSem s.avail, s.tasks.set i .done⟩

/-- States reachable by a run of `k` submitted tasks with a semaphore
initialised to `n` permits (`asyncio.Semaphore(max_concurrent)`). -/
inductive SchedReach (useSem : Bool) (n k : Nat) : SchedState → Prop where
  | init : SchedReach useSem n k ⟨n, List.replicate k .waiting⟩
  | step {s t : SchedState} :
      SchedReach useSem n k s → SchedStep useSem s t → SchedReach useSem n k t

theorem countRunning_replicate_waiting (k : Nat) :
    countRunning (List.replicate k .waiting) = 0 := by
  induction k with
  | zero => rfl
  | succ m ih => simpa [List.replicate, countRunning] using ih

theorem countRunning_set_running (l : List TaskPhase) (i : Nat)
    (h : l[i]? = some .waiting) :
    countRunning (l.set i .running) = countRunning l + 1 := by
  induction l generalizing i with
  | nil => simp at h
  | cons a t ih =>
    cases i with
    | zero =>
      simp only [List.getElem?_cons_zero, Option.some.injEq] at h
      subst h
      simp [countRunning]
    | succ j =>
      simp only [List.getElem?_cons_succ] at h
      cases a <;> simp [countRunning, ih j h]

theorem countRunning_set_done (l : List TaskPhase) (i : Nat)
    (h : l[i]? = some .running) :
    countRunning (l.set i .done) + 1 = countRunning l := by
  induction l generalizing i with
  | nil => simp at h
  | cons a t ih =>
    cases i with
    | zero =>
      simp only [List.getElem?_cons_zero, Option.some.injEq] at h
      subst h
      simp [countRunning]
    | succ j =>
      simp only [List.getElem?_cons_succ] at h
      cases a <;> simp [countRunning, ← ih j h]

/-- Semaphore accounting of the typed path: every task inside the guarded
await holds exactly one permit, so executing tasks plus free permits
equal the configured limit in every reachable state. -/
theorem semaphore_accounting {n k : Nat} {s : SchedState}
    (h : SchedReach true n k s) : countRunning s.tasks + s.avail = n := by
  induction h with
  | init => simp [countRunning_replicate_waiting]
  | step _ hstep ih =>
    cases hstep with
    | start i hw hg =>
      have hp := hg rfl
      have hc := countRunning_set_running _ i hw
      simp only [acqAvail, hc]
      omega
    | finish i hr =>
      have hc := countRunning_set_done _ i hr
      simp only [relAvail]
      omega

theorem processResults_length (j : Nat) (rs : List (Except String DownloadResult)) :
    (processResults j rs).length = rs.length := by
  induction rs generalizing j with
  | nil => rfl
  | cons a t ih => cases a <;> simp [processResults, ih]

theorem processResults_getElem (j : Nat) (rs : List (Except String DownloadResult))
    (i : Nat) (e : String) (h : rs[i]? = some (.error e)) :
    (processResults j rs)[i]? =
      some { model_name := "model_" ++ toString (j + i), success := false,
             error_message := some e } := by
  induction rs generalizing i j with
  | nil => simp at h
  | cons a t ih =>
    cases i with
    | zero =>
      simp only [List.getElem?_cons_zero, Option.some.injEq] at h
      subst h
      simp [processResults]
    | succ k =>
      simp only [List.getElem?_cons_succ] at h
      have hk := ih (j + 1) k h
      rw [show j + (k + 1) = j + 1 + k by omega]
      cases a <;> simpa [processResults] using hk

/-- A manifest with one valid direct-URL entry; its `ModelSpec`
construction succeeds, so a non-dry-run typed download stage on it
submits one task. -/
def cfgOneUrlModel : PydConfig :=
  [("lora", [("m1", { source := "url", url := some "https://host/x.bin" })])]

/-- The summary a dry run over `cfgOneUrlModel` returns. -/
def summaryOneOk : ProvisioningSummary :=
  { total_models := 1, successful_downloads := 1, failed_downloads := 0,
    skipped_models := 0 }

/-- A one-entry manifest whose single model fails `ModelSpec`
construction: `source` normalised to `"unknown"` passes Pydantic but
`ModelSource("unknown")` raises, so the entry is logged and excluded. -/
def cfgWithBadEntry : PydConfig :=
  [("checkpoints", [("badmodel", { source := "unknown" })])]

/-- C10: a gathered download task that ended in an exception is converted
into a failed `DownloadResult` whose `model_name` is the positional
placeholder `model_{i}` (its index in the submission list), carrying the
stringified exception. -/
theorem exception_results_use_positional_placeholder
    (rs : List (Except String DownloadResult)) (i : Nat) (e : String)
    (h : rs[i]? = some (.error e)) :
    (executeConcurrentDownloads rs)[i]? =
      some { model_name := "model_" ++ toString i, success := false,
             error_message := some e } := by
  have := processResults_getElem 0 rs i e h
  simpa [executeConcurrentDownloads] using this

/-- C10 witness: concrete two-task run whose second task raised. -/
theorem exception_results_use_positional_placeholder_witness :
    (executeConcurrentDownloads
      [.ok { model_name := "good", success := true }, .error "boom"])[1]? =
      some { model_name := "model_1", success := false,
             error_message := some "boom" } := by
  have := exception_results_use_positional_placeholder
    [.ok { model_name := "good", success := true }, .error "boom"] 1 "boom" rfl
  simpa using this

/-- The success count of core.py line 333 over a nonempty gather of
coroutine objects raises at its first element. -/
theorem countSuccesses_coroutines (mcs : List ModelConfig) (h : mcs ≠ []) :
    countSuccesses (mcs.map Awaited.coroutineObj) =
      .error "AttributeError: coroutine object has no attribute success" := by
  cases mcs with
  | nil => exact absurd rfl h
  | cons a t => rfl

/-- C1 (amended): every summary the typed download stage actually returns
(dry-run runs, and runs with no successfully-constructed entry) satisfies
`total = successful + failed + skipped` with `total` equal to the number
of entries whose `ModelSpec` construction succeeded — construction
failures are excluded from the total, not included; and a non-dry-run
manifest with at least one successfully-constructed entry never returns a
summary at all: the stage raises `AttributeError` (the missing `await`),
surfaced by the orchestrator as a `ProvisioningError`. -/
theorem summary_counts_account_for_built_entries (dryRun : Bool)
    (modelsDir : String) (cfg : PydConfig) :
    (∀ s : ProvisioningSummary,
      (downloadModelsTyped dryRun modelsDir cfg).1 = .ok s →
      s.total_models = s.successful_downloads + s.failed_downloads +
        s.skipped_models ∧
      s.total_models = (builtConfigs modelsDir cfg).length) ∧
    (dryRun = false → builtConfigs modelsDir cfg ≠ [] →
      (downloadModelsTyped dryRun modelsDir cfg).1 =
        .error "AttributeError: coroutine object has no attribute success") := by
  constructor
  · intro s hs
    unfold downloadModelsTyped at hs
    cases dryRun with
    | true =>
      rw [if_pos rfl] at hs
      have h2 := Except.ok.inj hs
      subst h2
      exact ⟨by simp, rfl⟩
    | false =>
      rw [if_neg (by simp)] at hs
      by_cases hm : (builtConfigs modelsDir cfg).isEmpty
      · rw [if_pos hm] at hs
        have h2 := Except.ok.inj hs
        subst h2
        exact ⟨rfl, by simp [List.isEmpty_iff.mp hm]⟩
      · have hne : builtConfigs modelsDir cfg ≠ [] := by
          intro h0
          rw [h0] at hm
          exact hm rfl
        simp [countSuccesses_coroutines _ hne, hne] at hs
  · intro hd hne
    subst hd
    unfold downloadModelsTyped
    rw [if_neg (by simp)]
    rw [if_neg (by simpa using hne)]
    simp [countSuccesses_coroutines _ hne]

/-- C1 witness: on a one-valid-entry manifest, the dry-run summary obeys
both counting laws, and the non-dry-run stage raises instead of returning
a summary. -/
theorem summary_counts_account_for_built_entries_witness :
    (summaryOneOk.total_models = summaryOneOk.successful_downloads +
        summaryOneOk.failed_downloads + summaryOneOk.skipped_models ∧
      summaryOneOk.total_models =
        (builtConfigs "/workspace/forge/models" cfgOneUrlModel).length) ∧
    (downloadModelsTyped false "/workspace/forge/models" cfgOneUrlModel).1 =
      .error "AttributeError: coroutine object has no attribute success" :=
  ⟨(summary_counts_account_for_built_entries true "/workspace/forge/models"
      cfgOneUrlModel).1 summaryOneOk rfl,
   (summary_counts_account_for_built_entries false "/workspace/forge/models"
      cfgOneUrlModel).2 rfl (by decide)⟩

/-- C1 counterexample: a manifest with one entry whose `ModelSpec`
construction fails yields a summary whose `total_models` is `0`, not the
`1` entry processed — construction failures are not included in the
total.  (This run has no task, so the real program does return this
summary.) -/
theorem summary_total_excludes_construction_failures :
    configEntryCount cfgWithBadEntry = 1 ∧
    (downloadModelsTyped false "/workspace/forge/models" cfgWithBadEntry).1 =
      .ok { total_models := 0, successful_downloads := 0, failed_downloads := 0,
            skipped_models := 0 } := by
  constructor <;> rfl

/-- C5 (amended): `success_rate` is a percentage — it is `0` when
`total_models` is `0` and otherwise satisfies
`rate * total = successful * 100` over `ℚ`. -/
theorem success_rate_is_percentage (s : ProvisioningSummary) :
    (s.total_models = 0 → s.success_rate = 0) ∧
    (s.total_models ≠ 0 →
      s.success_rate * (s.total_models : ℚ) = (s.successful_downloads : ℚ) * 100) := by
  constructor
  · intro h
    simp [ProvisioningSummary.success_rate, h]
  · intro h
    have hq : ((s.total_models : ℚ)) ≠ 0 := by exact_mod_cast h
    simp only [ProvisioningSummary.success_rate, if_neg h]
    field_simp

/-- C5 witness: a 3-of-4 summary has rate `75`, i.e. `rate * 4 = 300`. -/
theorem success_rate_is_percentage_witness :
    ({ total_models := 4, successful_downloads := 3, failed_downloads := 1,
       skipped_models := 0 } : ProvisioningSummary).success_rate * 4 = 300 := by
  have h := (success_rate_is_percentage
    { total_models := 4, successful_downloads := 3, failed_downloads := 1,
      skipped_models := 0 }).2 (by norm_num)
  norm_num at h
  exact_mod_cast h

/-- C5 counterexample: the claimed `rate = successful / total` fails — a
1-of-2 summary has `success_rate = 50`, while `successful / total` is
`1 / 2`. -/
theorem success_rate_differs_from_claimed_ratio :
    ({ total_models := 2, successful_downloads := 1, failed_downloads := 1,
       skipped_models := 0 } : ProvisioningSummary).success_rate = 50 ∧
    ((1 : ℚ) / 2 ≠ 50) := by
  constructor
  · norm_num [ProvisioningSummary.success_rate]
  · norm_num

/-- C7: both token probes return `false` with no network call when the
token is absent (or empty), return `false` for any non-2xx response, and
— being total functions whose every branch yields a `Bool` — never let an
exception escape; the full characterisation is that validation succeeds
exactly on a present token and a 200 response. -/
theorem token_validation_contract (env : TokenEnv) (hfProbe civProbe : Option Nat) :
    (isBlankOpt env.hf_token = true → validate_hf_token env hfProbe = (false, [])) ∧
    (isBlankOpt env.civitai_token = true →
      validate_civitai_token env civProbe = (false, [])) ∧
    (∀ s, hfProbe = some s → s < 200 ∨ 300 ≤ s →
      (validate_hf_token env hfProbe).1 = false) ∧
    (∀ s, civProbe = some s → s < 200 ∨ 300 ≤ s →
      (validate_civitai_token env civProbe).1 = false) ∧
    ((validate_hf_token env hfProbe).1 = true ↔
      isBlankOpt env.hf_token = false ∧ hfProbe = some 200) ∧
    ((validate_civitai_token env civProbe).1 = true ↔
      isBlankOpt env.civitai_token = false ∧ civProbe = some 200) := by
  refine ⟨?_, ?_, ?_, ?_, ?_, ?_⟩
  · intro h; simp [validate_hf_token, h]
  · intro h; simp [validate_civitai_token, h]
  · intro s hs hrange
    subst hs
    have : s ≠ 200 := by omega
    by_cases hb : isBlankOpt env.hf_token <;> simp [validate_hf_token, hb, this]
  · intro s hs hrange
    subst hs
    have : s ≠ 200 := by omega
    by_cases hb : isBlankOpt env.civitai_token <;> simp [validate_civitai_token, hb, this]
  · by_cases hb : isBlankOpt env.hf_token <;> simp [validate_hf_token, hb]
  · by_cases hb : isBlankOpt env.civitai_token <;> simp [validate_civitai_token, hb]

/-- C7 witness: missing hub token and a 403 marketplace probe. -/
theorem token_validation_contract_witness :
    validate_hf_token { civitai_token := some "t" } none = (false, []) ∧
    (validate_civitai_token { civitai_token := some "t" } (some 403)).1 = false := by
  refine ⟨(token_validation_contract { civitai_token := some "t" } none (some 403)).1 rfl,
    (token_validation_contract { civitai_token := some "t" } none (some 403)).2.2.2.1
      403 rfl (by omega)⟩

theorem not_mem_removeFile (p : String) (fs : List String) :
    p ∉ removeFile p fs := by
  simp [removeFile]

/-- Any failing transfer of the CivitAI downloader returns `False` and
leaves no file at the target path (the partial file is unlinked in the
exception handler). -/
theorem civitaiDownloadFile_failure (url target : String) (fs : List String)
    (cx : CivXfer) (hfs : target ∉ fs) (h : cx.isFailure = true) :
    (civitaiDownloadFile url target fs cx).1 = false ∧
    target ∉ (civitaiDownloadFile url target fs cx).2.1 := by
  cases cx with
  | ok => simp [CivXfer.isFailure] at h
  | httpError s => exact ⟨rfl, hfs⟩
  | midFail m => exact ⟨rfl, not_mem_removeFile _ _⟩
  | connectFail m =>
    simp only [civitaiDownloadFile, if_neg hfs]
    exact ⟨trivial, hfs⟩

/-- Any failing transfer of the direct-URL downloader (timeout included,
through any chain of Google-Drive interstitial hops) returns `False` and
leaves no file at the target path. -/
theorem directDownloadFile_failure (url target : String) (fs : List String)
    (dx : DirXfer) (hfs : target ∉ fs) (h : dx.isFailure = true) :
    (directDownloadFile url target fs dx).1 = false ∧
    target ∉ (directDownloadFile url target fs dx).2.1 := by
  induction dx generalizing url with
  | ok => simp [DirXfer.isFailure] at h
  | httpError s => exact ⟨rfl, hfs⟩
  | midFail m => exact ⟨rfl, not_mem_removeFile _ _⟩
  | timeout => exact ⟨rfl, not_mem_removeFile _ _⟩
  | connectFail m =>
    simp only [directDownloadFile, if_neg hfs]
    exact ⟨trivial, hfs⟩
  | gdriveConfirm confirmUrl next ih =>
    simp only [DirXfer.isFailure] at h
    have := ih confirmUrl h
    simpa [directDownloadFile] using this

/-- C6: for both streaming downloaders, a transfer that fails mid-stream
(exception after a partial write, or timeout) reports failure and leaves
no partial file at the target path. -/
theorem failed_transfer_leaves_no_partial_file (url target : String)
    (fs : List String) (cx : CivXfer) (dx : DirXfer) (hfs : target ∉ fs)
    (hc : cx.isFailure = true) (hd : dx.isFailure = true) :
    ((civitaiDownloadFile url target fs cx).1 = false ∧
      target ∉ (civitaiDownloadFile url target fs cx).2.1) ∧
    ((directDownloadFile url target fs dx).1 = false ∧
      target ∉ (directDownloadFile url target fs dx).2.1) :=
  ⟨civitaiDownloadFile_failure url target fs cx hfs hc,
   directDownloadFile_failure url target fs dx hfs hd⟩

/-- C6 witness: a mid-stream exception on the marketplace side and a
timeout on the direct-URL side, each at a fresh target. -/
theorem failed_transfer_leaves_no_partial_file_witness :
    ((civitaiDownloadFile "https://civitai.com/api/download/models/9"
        "/models/Lora/x.safetensors" [] (.midFail "reset")).1 = false ∧
      "/models/Lora/x.safetensors" ∉
        (civitaiDownloadFile "https://civitai.com/api/download/models/9"
          "/models/Lora/x.safetensors" [] (.midFail "reset")).2.1) ∧
    ((directDownloadFile "https://host/x.bin" "/models/Lora/x.safetensors"
        [] .timeout).1 = false ∧
      "/models/Lora/x.safetensors" ∉
        (directDownloadFile "https://host/x.bin" "/models/Lora/x.safetensors"
          [] .timeout).2.1) :=
  failed_transfer_leaves_no_partial_file "https://civitai.com/api/download/models/9"
    "/models/Lora/x.safetensors" [] (.midFail "reset") .timeout
    (by simp) rfl rfl

/-- Classification of effects as network requests. -/
def Effect.isNetwork : Effect → Bool
  | .netGet _ => true
  | .netHead _ => true
  | .mkdir _ => false
  | .fileWrite _ => false
  | .fileUnlink _ => false

/-- The typed download stage emits only `mkdir` effects — in particular
no network effect: in dry-run mode it emits nothing, and otherwise the
guarded awaits return the adapter coroutines un-awaited, so no adapter
ever runs on this path. -/
theorem downloadModelsTyped_no_network (dryRun : Bool) (modelsDir : String)
    (cfg : PydConfig) (e : Effect)
    (he : e ∈ (downloadModelsTyped dryRun modelsDir cfg).2) :
    e.isNetwork = false := by
  unfold downloadModelsTyped at he
  cases dryRun with
  | true =>
    rw [if_pos rfl] at he
    exact absurd (he : e ∈ ([] : List Effect)) (List.not_mem_nil e)
  | false =>
    rw [if_neg (by simp)] at he
    have hmk : e ∈ cfg.map
        (fun c => Effect.mkdir (pathJoin modelsDir (getCategoryDir c.1))) := by
      by_cases hm : (builtConfigs modelsDir cfg).isEmpty
      · rw [if_pos hm] at he
        exact he
      · rw [if_neg hm] at he
        exact he
    obtain ⟨c, _, rfl⟩ := List.mem_map.mp hmk
    rfl

/-- C2 (amended): on the `provision_from_file` path the adapter calls run
without the limiter, so their concurrency can exceed the configured limit
(see the counterexample).  On the `provision_from_url` path the semaphore
does bound the number of tasks inside the guarded await to the limit `n`
in every reachable state — but that await returns the adapter coroutine
un-awaited, so the typed download stage performs no network effect at
all, and the claimed bound on concurrently-executing adapter calls holds
there only vacuously. -/
theorem typed_path_semaphore_bound_and_no_adapter_network
    {n k : Nat} {s : SchedState} (h : SchedReach true n k s)
    (dryRun : Bool) (modelsDir : String) (cfg : PydConfig) :
    countRunning s.tasks ≤ n ∧
    ∀ e ∈ (downloadModelsTyped dryRun modelsDir cfg).2, e.isNetwork = false := by
  constructor
  · have := semaphore_accounting h
    omega
  · intro e he
    exact downloadModelsTyped_no_network dryRun modelsDir cfg e he

/-- C2 witness: after one task of three starts under a limit of five, one
guarded await is in flight — within the bound — and a concrete non-dry
stage emits no network effect. -/
theorem typed_path_semaphore_bound_and_no_adapter_network_witness :
    countRunning [TaskPhase.running, TaskPhase.waiting, TaskPhase.waiting] ≤ 5 ∧
    ∀ e ∈ (downloadModelsTyped false "/workspace/forge/models" cfgOneUrlModel).2,
      Effect.isNetwork e = false :=
  typed_path_semaphore_bound_and_no_adapter_network
    (SchedReach.step SchedReach.init
      (SchedStep.start ⟨5, List.replicate 3 .waiting⟩ 0 rfl (fun _ => by decide)))
    false "/workspace/forge/models" cfgOneUrlModel

/-- C2 counterexample: on the `provision_from_file` path
(`_download_models`) the coroutines are gathered without the limiter, so
with a configured limit of `1` a state with two concurrently-running
adapter calls is reachable. -/
theorem gather_path_exceeds_limit :
    SchedReach false 1 2 { avail := 1, tasks := [.running, .running] } ∧
    ¬(countRunning [TaskPhase.running, TaskPhase.running] ≤ 1) := by
  constructor
  · have h0 : SchedReach false 1 2 { avail := 1, tasks := [.waiting, .waiting] } :=
      SchedReach.init
    have h1 : SchedReach false 1 2 { avail := 1, tasks := [.running, .waiting] } :=
      SchedReach.step h0
        (SchedStep.start ⟨1, [.waiting, .waiting]⟩ 0 rfl (fun hh => by cases hh))
    exact SchedReach.step h1
      (SchedStep.start ⟨1, [.running, .waiting]⟩ 1 rfl (fun hh => by cases hh))
  · decide

/-- C3 counterexample: the marketplace adapter is not network-free on
skip — with the target file already present it still performs the
model-info GET before reporting success, and when that metadata fetch
fails it reports failure even though the file exists. -/
theorem civitai_skip_not_network_free :
    civitaiDownload "m" "123" "/models/Lora" "model.safetensors"
        (some { filename := "model.safetensors" })
        ["/models/Lora/model.safetensors"] .ok =
      (true, ["/models/Lora/model.safetensors"],
        [Effect.netGet "https://civitai.com/api/v1/model-versions/123"]) ∧
    (civitaiDownload "m" "123" "/models/Lora" "model.safetensors" none
        ["/models/Lora/model.safetensors"] .ok).1 = false := by
  constructor <;> decide

/-- C3 (amended): when the resolved target file already exists, the hub
adapter reports success with no network call; the direct-URL adapter does
so too provided the filename is explicit (otherwise discovery may probe);
the marketplace adapter reports success without downloading but only
after its unconditional metadata GET. -/
theorem skip_if_present_semantics
    (model_name repo_id model_id url processedUrl urlPath target_dir filename : String)
    (gated canAccess : Bool) (dl headResult : Option String)
    (info : CivitaiInfo) (fs : List String) (cx : CivXfer) (dx : DirXfer)
    (hmem : pathJoin target_dir filename ∈ fs) :
    hfDownload true model_name repo_id filename target_dir gated fs canAccess dl
      = (true, fs, []) ∧
    (filename ≠ "" →
      directDownload model_name url processedUrl urlPath target_dir filename
        headResult fs dx = (true, fs, [])) ∧
    (filename ≠ "" →
      civitaiDownload model_name model_id target_dir filename (some info) fs cx =
        (true, fs,
          [Effect.netGet (civitaiBaseUrl ++ "/v1/model-versions/" ++ model_id)])) := by
  refine ⟨?_, ?_, ?_⟩
  · simp [hfDownload, hmem]
  · intro hfn
    simp [directDownload, directResolveFilename, hfn, hmem]
  · intro hfn
    simp [civitaiDownload, civitaiGetModelInfo, civitaiResolveFilename, hfn, hmem]

/-- C3 witness: a present checkpoint is skipped by all three adapters on
a concrete input. -/
theorem skip_if_present_semantics_witness :
    hfDownload true "m" "org/r" "w.bin" "/d" false ["/d/w.bin"] true none
      = (true, ["/d/w.bin"], []) ∧
    directDownload "m" "u" "u" "/w.bin" "/d" "w.bin" none ["/d/w.bin"] .ok
      = (true, ["/d/w.bin"], []) ∧
    civitaiDownload "m" "9" "/d" "w.bin" (some { filename := "w.bin" })
        ["/d/w.bin"] .ok =
      (true, ["/d/w.bin"],
        [Effect.netGet "https://civitai.com/api/v1/model-versions/9"]) := by
  have h := skip_if_present_semantics "m" "org/r" "9" "u" "u" "/w.bin" "/d" "w.bin"
    false true none none { filename := "w.bin" } ["/d/w.bin"] .ok .ok (by decide)
  exact ⟨h.1, h.2.1 (by decide), h.2.2 (by decide)⟩

/-- An optional string normalised by Python truthiness: the empty string
counts as absent. -/
def optNonempty : Option String → Option String
  | none => none
  | some s => if s = "" then none else some s

/-- C9 (amended): only the direct-URL adapter implements the claimed
resolution chain (explicit filename, else discovery, else the synthesized
`{model_name}.safetensors`); the marketplace adapter resolves to the
explicit filename else the API metadata name — never the synthesized
default, since the metadata dict always carries a `filename` key. -/
theorem filename_resolution_order
    (model_name filename processedUrl urlPath : String)
    (headResult : Option String) (info : CivitaiInfo) :
    (directResolveFilename model_name filename processedUrl urlPath headResult).1 =
      specFilenameChain (optNonempty (some filename))
        (optNonempty (directGetFilename processedUrl urlPath headResult).1)
        model_name ∧
    civitaiResolveFilename filename info =
      (optNonempty (some filename)).getD info.filename := by
  by_cases hfn : filename = ""
  · subst hfn
    constructor
    · rcases hfound : (directGetFilename processedUrl urlPath headResult).1 with _ | s
      · simp [directResolveFilename, hfound, optNonempty, specFilenameChain]
      · by_cases hs : s = ""
        · subst hs
          simp [directResolveFilename, hfound, optNonempty, specFilenameChain]
        · simp [directResolveFilename, hfound, optNonempty, specFilenameChain, hs]
    · simp [civitaiResolveFilename, optNonempty]
  · constructor
    · simp [directResolveFilename, hfn, optNonempty, specFilenameChain]
    · simp [civitaiResolveFilename, hfn, optNonempty]

/-- C9 counterexample: the hub adapter has no discovery and no default —
with no explicit `file` field it receives the empty filename
(`model_config.file or ""`), so the resolved target is the category
directory itself, which exists, and the adapter "skips" with success;
the claimed chain would have resolved `mymodel.safetensors`. -/
theorem hub_filename_has_no_default :
    orEmpty none = "" ∧
    specFilenameChain none none "mymodel" = "mymodel.safetensors" ∧
    hfDownload true "mymodel" "org/repo" (orEmpty none) "/models/Lora" false
        ["/models/Lora"] true (some "p") = (true, ["/models/Lora"], []) ∧
    ("" : String) ≠ "mymodel.safetensors" := by
  refine ⟨rfl, rfl, ?_, by decide⟩
  decide

/-- C4 (amended): the download stage in dry-run mode creates no
directories, performs no network calls, dispatches no task, and counts
every entry whose `ModelSpec` construction succeeds as successful. -/
theorem dry_run_download_stage_effect_free (modelsDir : String) (cfg : PydConfig) :
    downloadModelsTyped true modelsDir cfg =
      (.ok { total_models := (builtConfigs modelsDir cfg).length,
             successful_downloads := (builtConfigs modelsDir cfg).length,
             failed_downloads := 0, skipped_models := 0 }, []) := rfl

/-- A dry-run manifest with one gated hub model, used to show the whole
`provision_from_url` pipeline is not network-free in dry-run mode. -/
def rawGatedHub : RawConfig :=
  [("checkpoints",
    [("gatedmodel",
      { source := some "huggingface", repo := some "org/model", gated := true })])]

/-- C4 counterexample: a dry-run of `provision_from_url` still performs
network calls — the manifest fetch itself, and the token-validation
probes when the manifest has gated entries. -/
theorem dry_run_still_performs_network_calls :
    (provisionFromUrl true { hf_token := some "tok" } (some 200) none
        "https://cfg.example/p.toml" (some rawGatedHub)
        "/workspace/forge/models").2 =
      [Effect.netGet "https://cfg.example/p.toml",
       Effect.netGet "https://huggingface.co/api/whoami-v2"] ∧
    (provisionFromUrl true { hf_token := some "tok" } (some 200) none
        "https://cfg.example/p.toml" (some rawGatedHub)
        "/workspace/forge/models").2 ≠ [] := by
  constructor <;> decide

theorem exceptMapList_ok_mem {α β : Type} (f : α → Except String β)
    (xs : List α) (ys : List β) (h : exceptMapList f xs = .ok ys) :
    ∀ x ∈ xs, ∃ y ∈ ys, f x = .ok y := by
  induction xs generalizing ys with
  | nil => intro x hx; simp at hx
  | cons a t ih =>
    intro x hx
    unfold exceptMapList at h
    cases hfa : f a with
    | error e => rw [hfa] at h; cases h
    | ok b =>
      rw [hfa] at h
      cases hts : exceptMapList f t with
      | error e => rw [hts] at h; cases h
      | ok bs =>
        rw [hts] at h
        injection h with hys
        subst hys
        rcases List.mem_cons.mp hx with rfl | hx2
        · exact ⟨b, List.mem_cons_self _ _, hfa⟩
        · obtain ⟨y, hy, hfy⟩ := ih bs hts x hx2
          exact ⟨y, List.mem_cons_of_mem _ hy, hfy⟩

theorem pydanticModel_explicit_hub (m : RawModel) (pm : PydModel)
    (hs : m.source = some "huggingface") (h : pydanticModel m = .ok pm) :
    pm.source = "huggingface" ∧ pm.repo = m.repo ∧
    isBlankOpt m.repo = false := by
  have hv : validateSourceField m = "huggingface" := by
    simp [validateSourceField, hs]
  unfold pydanticModel at h
  rw [hv] at h
  by_cases hb : isBlankOpt m.repo = true
  · simp [hb] at h
  · rw [if_neg (by simp [hb])] at h
    rw [if_neg (by simp)] at h
    rw [if_neg (by simp)] at h
    injection h with hpm
    subst hpm
    exact ⟨rfl, rfl, by simpa using hb⟩

theorem buildModelConfig_hub_ok (name dir : String) (pm : PydModel)
    (hs : pm.source = "huggingface") (hr : isBlankOpt pm.repo = false) :
    ∃ conf, buildModelConfig name dir pm = .ok conf ∧ conf.name = name := by
  refine ⟨{ name := name, source := .huggingface, target_dir := dir,
            repo := pm.repo, version_id := pm.version_id, url := pm.url,
            filename := pm.filename, file := pm.file, gated := pm.gated,
            headers := pm.headers }, ?_, rfl⟩
  unfold buildModelConfig
  rw [hs]
  simp [ModelSource.ofString, mkModelConfig, hr]

theorem mem_findGatedModels (cfg : RawConfig) (cat : String)
    (entries : List (String × RawModel)) (name : String) (m : RawModel)
    (hc : (cat, entries) ∈ cfg) (he : (name, m) ∈ entries) (hg : m.gated = true) :
    m ∈ findGatedModels cfg := by
  unfold findGatedModels
  rw [List.mem_flatMap]
  refine ⟨(cat, entries), hc, ?_⟩
  rw [List.mem_filterMap]
  exact ⟨(name, m), he, by simp [hg]⟩

theorem mem_validateTokensErrors (cfg : RawConfig) (m : RawModel)
    (hfValid civValid : Bool) (hm : m ∈ findGatedModels cfg)
    (hplat : (m.source = some "huggingface" ∧ hfValid = false) ∨
      (m.source = some "civitai" ∧ civValid = false)) :
    m ∈ validateTokensErrors cfg hfValid civValid := by
  unfold validateTokensErrors
  rw [List.mem_filter]
  refine ⟨hm, ?_⟩
  rcases hplat with ⟨hs, hv⟩ | ⟨hs, hv⟩ <;> subst hv <;> simp [hs]

theorem pydanticModel_explicit_civitai (m : RawModel) (pm : PydModel)
    (hs : m.source = some "civitai") (h : pydanticModel m = .ok pm) :
    pm.source = "civitai" ∧ pm.version_id = m.version_id ∧
    isBlankOpt m.version_id = false := by
  have hv : validateSourceField m = "civitai" := by
    simp [validateSourceField, hs]
  unfold pydanticModel at h
  rw [hv] at h
  by_cases hb : isBlankOpt m.version_id = true
  · rw [if_neg (by simp)] at h
    simp [hb] at h
  · rw [if_neg (by simp)] at h
    rw [if_neg (by simp [hb])] at h
    rw [if_neg (by simp)] at h
    injection h with hpm
    subst hpm
    exact ⟨rfl, rfl, by simpa using hb⟩

theorem buildModelConfig_civitai_ok (name dir : String) (pm : PydModel)
    (hs : pm.source = "civitai") (hr : isBlankOpt pm.version_id = false) :
    ∃ conf, buildModelConfig name dir pm = .ok conf ∧ conf.name = name := by
  refine ⟨{ name := name, source := .civitai, target_dir := dir,
            repo := pm.repo, version_id := pm.version_id, url := pm.url,
            filename := pm.filename, file := pm.file, gated := pm.gated,
            headers := pm.headers }, ?_, rfl⟩
  unfold buildModelConfig
  rw [hs]
  simp [ModelSource.ofString, mkModelConfig, hr]

theorem mem_builtConfigs (modelsDir : String) (pcfg : PydConfig) (cat : String)
    (pentries : List (String × PydModel)) (name : String) (pm : PydModel)
    (conf : ModelConfig)
    (hc : (cat, pentries) ∈ pcfg) (he : (name, pm) ∈ pentries)
    (hb : buildModelConfig name (pathJoin modelsDir (getCategoryDir cat)) pm
      = .ok conf) :
    conf ∈ builtConfigs modelsDir pcfg := by
  unfold builtConfigs
  rw [List.mem_flatMap]
  refine ⟨(cat, pentries), hc, ?_⟩
  rw [List.mem_filterMap]
  exact ⟨(name, pm), he, by simp [hb, Except.toOption]⟩

/-- An entry with explicit platform source that passed Pydantic always
yields a dispatched `ModelConfig` carrying its manifest name. -/
theorem explicit_platform_entry_dispatched (name dir : String)
    (m : RawModel) (pm : PydModel) (hpm : pydanticModel m = .ok pm)
    (hs : m.source = some "huggingface" ∨ m.source = some "civitai") :
    ∃ conf, buildModelConfig name dir pm = .ok conf ∧ conf.name = name := by
  rcases hs with hs | hs
  · obtain ⟨h1, h2, h3⟩ := pydanticModel_explicit_hub m pm hs hpm
    exact buildModelConfig_hub_ok name dir pm h1 (by rw [h2]; exact h3)
  · obtain ⟨h1, h2, h3⟩ := pydanticModel_explicit_civitai m pm hs hpm
    exact buildModelConfig_civitai_ok name dir pm h1 (by rw [h2]; exact h3)

/-- C8 (amended): for a gated entry whose `source` field explicitly names
a platform with failed token validation, `_validate_tokens` logs the
gated-access-denied error for that entry, and the entry is still
dispatched — the dispatched set (`builtConfigs`) is computed without any
reference to token validity.  (Entries whose platform is only inferable
normalise to source `"unknown"` and are neither logged nor dispatched —
see the counterexample.) -/
theorem gated_token_failure_logs_and_still_dispatches
    (raw : RawConfig) (pcfg : PydConfig) (hfValid civValid : Bool)
    (modelsDir : String) (cat name : String)
    (entries : List (String × RawModel)) (m : RawModel)
    (hok : pydanticConfig raw = .ok pcfg)
    (hc : (cat, entries) ∈ raw) (he : (name, m) ∈ entries)
    (hg : m.gated = true)
    (hplat : (m.source = some "huggingface" ∧ hfValid = false) ∨
      (m.source = some "civitai" ∧ civValid = false)) :
    m ∈ validateTokensErrors raw hfValid civValid ∧
    name ∈ (builtConfigs modelsDir pcfg).map (fun conf => conf.name) := by
  refine ⟨mem_validateTokensErrors raw m hfValid civValid
    (mem_findGatedModels raw cat entries name m hc he hg) hplat, ?_⟩
  obtain ⟨pc, hpc, hcat⟩ :=
    exceptMapList_ok_mem pydanticCategory raw pcfg hok (cat, entries) hc
  cases hms : exceptMapList pydanticEntry entries with
  | error e => unfold pydanticCategory at hcat; rw [hms] at hcat; cases hcat
  | ok ms =>
    unfold pydanticCategory at hcat
    rw [hms] at hcat
    injection hcat with hpceq
    obtain ⟨pe, hpe, hent⟩ :=
      exceptMapList_ok_mem pydanticEntry entries ms hms (name, m) he
    cases hpm : pydanticModel m with
    | error e => unfold pydanticEntry at hent; rw [hpm] at hent; cases hent
    | ok pm =>
      unfold pydanticEntry at hent
      rw [hpm] at hent
      injection hent with hpe2
      obtain ⟨conf, hbc, hname⟩ := explicit_platform_entry_dispatched name
        (pathJoin modelsDir (getCategoryDir cat)) m pm hpm
        (by rcases hplat with ⟨hs, _⟩ | ⟨hs, _⟩ <;> [exact Or.inl hs; exact Or.inr hs])
      have hmem := mem_builtConfigs modelsDir pcfg cat ms name pm conf
        (hpceq ▸ hpc) (hpe2 ▸ hpe) hbc
      rw [List.mem_map]
      exact ⟨conf, hmem, hname⟩

/-- A gated hub entry with explicit source, raw and validated forms. -/
def gmRaw : RawModel :=
  { source := some "huggingface", repo := some "org/x", gated := true }

def gmPyd : PydModel :=
  { source := "huggingface", repo := some "org/x", gated := true }

def rawExplicitHub : RawConfig := [("lora", [("gm", gmRaw)])]

def pcfgExplicitHub : PydConfig := [("lora", [("gm", gmPyd)])]

/-- C8 witness: a gated hub entry with explicit source and an invalid hub
token is error-logged and still dispatched. -/
theorem gated_token_failure_logs_and_still_dispatches_witness :
    gmRaw ∈ validateTokensErrors rawExplicitHub false true ∧
    "gm" ∈ (builtConfigs "/workspace/forge/models" pcfgExplicitHub).map
      (fun conf => conf.name) :=
  gated_token_failure_logs_and_still_dispatches rawExplicitHub pcfgExplicitHub
    false true "/workspace/forge/models" "lora" "gm" [("gm", gmRaw)] gmRaw
    rfl (List.mem_cons_self _ _) (List.mem_cons_self _ _) rfl
    (Or.inl ⟨rfl, rfl⟩)

/-- A gated hub entry whose source kind is only inferable (`repo` present,
no explicit `source` field). -/
def rawInferredHub : RawConfig :=
  [("checkpoints", [("gatedmodel", { repo := some "org/model", gated := true })])]

/-- What Pydantic makes of `rawInferredHub`: the auto-detect validator
runs before any other field is validated, so the source normalises to
`"unknown"`. -/
def pcfgInferredHub : PydConfig :=
  [("checkpoints", [("gatedmodel",
    { source := "unknown", repo := some "org/model", gated := true })])]

/-- C8 counterexample: a gated hub-platform entry without an explicit
`source` field passes Pydantic with source `"unknown"`; with the hub
token invalid it receives no gated-access error log, and it is not
dispatched either (its `ModelSource` construction fails) — so neither
half of the claim holds for it. -/
theorem inferred_gated_entry_not_logged_not_dispatched :
    pydanticConfig rawInferredHub = .ok pcfgInferredHub ∧
    findGatedModels rawInferredHub ≠ [] ∧
    validateTokensErrors rawInferredHub false false = [] ∧
    builtConfigs "/workspace/forge/models" pcfgInferredHub = [] := by
  refine ⟨rfl, by decide, by decide, rfl⟩

end VastProvision
